import Mathlib

/-!
Verification development for the question-understanding and answer-synthesis
engine of the Chat-Apple-Quality repository.

The engine lives in two JavaScript renderer variants:
* `src/renderer/renderer.js` — modelled here in namespace `Renderer`;
* `public/script/renderer.js` — modelled here in namespace `Pub`
  (this variant also answers model-metric questions via `answerFromModels`).

Modelling conventions (shallow embedding):
* JS numbers are modelled as exact rationals `ℚ`; `NaN`/`null`/absent values
  are modelled as `none` of an `Option` type.  JS `undefined` (a missing
  object key) is `none : Option Value`.
* Strings are Lean `String`s; all string scanning is done over `String.data`
  (`List Char`) with hand-rolled executable functions so that every
  definition reduces in the kernel.
* The JS regular expressions used by the source are implemented directly as
  scanning functions with the exact backtracking semantics of the patterns
  involved (leftmost match, greedy `.*` choosing the last viable tail, lazy
  `.*?` choosing the first viable tail, alternation tried left to right,
  `\b` word boundaries with `\w = [A-Za-z0-9_]`).  The regex metacharacter
  `.` does not match `'\n'`; the model enforces this for the spans crossed
  by `.*` / `.*?`.
* `String.prototype.toLowerCase` is modelled for ASCII letters (every input
  exercised by a theorem below is already lower case).
-/

/-! ### JS character classes and elementary string helpers -/

/-- Whitespace class `\s` (the characters relevant to this code base). -/
def isWsC (c : Char) : Bool :=
  c = ' ' || c = '\t' || c = '\n' || c = '\r'

/-- JS word-character class `\w = [A-Za-z0-9_]` (note: accented letters are
not word characters in JS). -/
def isWordC (c : Char) : Bool :=
  ('a' ≤ c && c ≤ 'z') || ('A' ≤ c && c ≤ 'Z') || ('0' ≤ c && c ≤ '9') || c = '_'

/-- Decimal digit. -/
def isDigitC (c : Char) : Bool :=
  '0' ≤ c && c ≤ '9'

/-- ASCII lower-casing of one character (JS `toLowerCase`, restricted to
ASCII; no theorem below feeds a non-ASCII upper-case letter through it). -/
def charLower (c : Char) : Char :=
  if 'A' ≤ c && c ≤ 'Z' then Char.ofNat (c.toNat + 32) else c

/-- `String.prototype.toLowerCase` (ASCII). -/
def jsToLower (s : String) : String :=
  String.mk (s.data.map charLower)

/-- `String.prototype.trim`. -/
def jsTrim (s : String) : String :=
  String.mk (((s.data.dropWhile isWsC).reverse.dropWhile isWsC).reverse)

/-- The characters of `pat` occur contiguously at position `i` of `hay`. -/
def litAt (hay : List Char) (i : ℕ) (pat : List Char) : Bool :=
  (hay.drop i).take pat.length == pat

/-- `haystack.includes(needle)` — substring containment. -/
def strContains (hay pat : String) : Bool :=
  (List.range (hay.data.length + 1)).any fun i => litAt hay.data i pat.data

/-- `s.split(/\s+/)` on an already trimmed string: the maximal runs of
non-whitespace characters. -/
def splitWsAux : List Char → List Char → List String → List String
  | [], cur, acc =>
    (if cur.isEmpty then acc else String.mk cur.reverse :: acc).reverse
  | c :: cs, cur, acc =>
    if isWsC c then
      splitWsAux cs [] (if cur.isEmpty then acc else String.mk cur.reverse :: acc)
    else
      splitWsAux cs (c :: cur) acc

def jsSplitWs (s : String) : List String :=
  splitWsAux s.data [] []

/-- `s.slice(0, n)` for strings. -/
def strTake (s : String) (n : ℕ) : String :=
  String.mk (s.data.take n)

/-- `ucfirst` from both renderers: capitalize the first character (ASCII). -/
def ucfirst (s : String) : String :=
  match s.data with
  | [] => s
  | c :: cs => String.mk ((if 'a' ≤ c && c ≤ 'z' then Char.ofNat (c.toNat - 32) else c) :: cs)

/-- `s.replace(',', '.')` — JS `replace` with a string pattern replaces only
the FIRST occurrence. -/
def replaceFirst (s : String) (a b : Char) : String :=
  String.mk (replaceFirstAux s.data a b)
where
  replaceFirstAux : List Char → Char → Char → List Char
    | [], _, _ => []
    | c :: cs, a, b => if c = a then b :: cs else c :: replaceFirstAux cs a b

/-! ### Kernel-reducible rational arithmetic

`Rat.add`, `Rat.mul`, `Rat.inv` (hence `+ * / -` on `ℚ`) are marked
irreducible in the standard library, which blocks `rfl`/`decide`
evaluation of concrete answers.  The model therefore computes through the
following wrappers, built on `Rat.divInt`/`mkRat` (which do reduce); the
bridge lemmas `qAdd_eq`, `qSub_eq`, `qMul_eq`, `qDiv_eq`, `ratFloor_eq`
below identify them with the ordinary field operations. -/

def qAdd (a b : ℚ) : ℚ :=
  Rat.divInt (a.num * b.den + b.num * a.den) (a.den * b.den)

def qNeg (a : ℚ) : ℚ := Rat.neg a

def qSub (a b : ℚ) : ℚ := qAdd a (qNeg b)

def qMul (a b : ℚ) : ℚ :=
  Rat.divInt (a.num * b.num) (a.den * b.den)

def qDiv (a b : ℚ) : ℚ :=
  Rat.divInt (a.num * b.den) (a.den * b.num)

/-- `10^e` for an integer exponent. -/
def qPow10 (e : ℤ) : ℚ :=
  if 0 ≤ e then ((10 ^ e.toNat : ℕ) : ℚ) else mkRat 1 (10 ^ e.natAbs)

/-! ### JS number parsing (`parseFloat`, `Number`, `parseInt`) over `ℚ` -/

/-- Value of a list of decimal digit characters. -/
def digitsVal (ds : List Char) : ℕ :=
  ds.foldl (fun a c => a * 10 + (c.toNat - '0'.toNat)) 0

/-- Signed-mantissa parsing shared by `parseFloat` and `Number`: consumes an
optional sign, integer digits, an optional `.` with fraction digits, and an
optional well-formed exponent; returns the value together with the unconsumed
suffix, or `none` when no digit was found.  (The JS special forms `Infinity`
and hex/octal/binary literals are not modelled; nothing in the claims
produces them.) -/
def parseMantissa (cs : List Char) : Option (ℚ × List Char) :=
  let (neg, cs1) :=
    match cs with
    | '-' :: t => (true, t)
    | '+' :: t => (false, t)
    | _ => (false, cs)
  let int := cs1.takeWhile isDigitC
  let cs2 := cs1.drop int.length
  let (frac, cs3) :=
    match cs2 with
    | '.' :: t => (t.takeWhile isDigitC, t.drop (t.takeWhile isDigitC).length)
    | _ => ([], cs2)
  if int.isEmpty && frac.isEmpty then none
  else
    let mant : ℚ := qAdd (digitsVal int : ℚ) (qDiv (digitsVal frac : ℚ) ((10 ^ frac.length : ℕ) : ℚ))
    let (expo, cs4) :=
      match cs3 with
      | c :: t =>
        if c = 'e' || c = 'E' then
          let (eneg, t1) :=
            match t with
            | '-' :: u => (true, u)
            | '+' :: u => (false, u)
            | _ => (false, t)
          let eds := t1.takeWhile isDigitC
          if eds.isEmpty then ((0 : ℤ), cs3)
          else ((if eneg then -(digitsVal eds : ℤ) else (digitsVal eds : ℤ)), t1.drop eds.length)
        else ((0 : ℤ), cs3)
      | [] => ((0 : ℤ), cs3)
    let v : ℚ := qMul mant (qPow10 expo)
    some ((if neg then qNeg v else v), cs4)

/-- JS `parseFloat(string)`: skip leading whitespace, parse the longest
numeric prefix; `none` models `NaN`. -/
def jsParseFloatStr (s : String) : Option ℚ :=
  (parseMantissa (s.data.dropWhile isWsC)).map Prod.fst

/-- JS `Number(string)` (used by `isNaN(v)` and arithmetic coercion on
strings): whitespace-trimmed empty string is `0`; otherwise the WHOLE string
must be a numeric literal. -/
def jsNumberOfString (s : String) : Option ℚ :=
  let cs := (s.data.dropWhile isWsC).reverse.dropWhile isWsC |>.reverse
  if cs.isEmpty then some 0
  else
    match parseMantissa cs with
    | some (v, []) => some v
    | _ => none

/-- JS `parseInt(s, 10)`: skip whitespace, optional sign, longest digit
prefix; `none` models `NaN`. -/
def jsParseIntDec (s : String) : Option ℤ :=
  let cs := s.data.dropWhile isWsC
  let (neg, cs1) :=
    match cs with
    | '-' :: t => (true, t)
    | '+' :: t => (false, t)
    | _ => (false, cs)
  let ds := cs1.takeWhile isDigitC
  if ds.isEmpty then none
  else some (if neg then -(digitsVal ds : ℤ) else (digitsVal ds : ℤ))

/-! ### Rendering numbers back to strings

JS renders numbers with the shortest decimal representation.  Every number
rendered by a theorem below is a rational with a finite decimal expansion
(they all arise from `round(v, 4)`), for which the shortest representation
is the plain decimal string produced here. -/

/-- Least `k ≤ 40` with `d ∣ 10^k` (finite decimal expansion search). -/
def decExpLen (d : ℕ) : Option ℕ :=
  (List.range 41).find? fun k => 10 ^ k % d = 0

/-- Strip trailing `'0'` characters. -/
def stripTrailingZeros (cs : List Char) : List Char :=
  (cs.reverse.dropWhile (· = '0')).reverse

/-- Left-pad a digit string with `'0'` to length `k`. -/
def padLeftZeros (cs : List Char) (k : ℕ) : List Char :=
  List.replicate (k - cs.length) '0' ++ cs

/-- Decimal rendering of a rational (JS `String(number)`), exact for finite
decimals; for a rational without finite decimal expansion (never produced by
the displayed values modelled here, which are rounded to 4 places first) it
falls back to a fraction notation. -/
def ratToString (q : ℚ) : String :=
  if q = 0 then "0"
  else
    let sign := if q < 0 then "-" else ""
    let n := q.num.natAbs
    let d := q.den
    match decExpLen d with
    | some k =>
      let scaled := n * (10 ^ k / d)
      let ip := scaled / 10 ^ k
      let fp := scaled % 10 ^ k
      let fds := stripTrailingZeros (padLeftZeros (Nat.toDigits 10 fp) k)
      if fds.isEmpty then sign ++ toString ip
      else sign ++ toString ip ++ "." ++ String.mk fds
    | none => sign ++ toString n ++ "/" ++ toString d

/-! ### Rounding (`round` helpers of both renderers)

`Math.round(x)` returns the integer closest to `x`, with halfway cases
rounded toward `+∞` (ECMA-262: "ties toward positive infinity"). -/

/-- `Math.round` over `ℚ`: `⌊q + 1/2⌋` (computed via the executable
`Rat.floor`; `ratFloor_eq` below identifies it with `Int.floor`). -/
def jsMathRound (q : ℚ) : ℤ :=
  (qAdd q (mkRat 1 2)).floor

/-- The numeric core of both renderers' `round(v, n)`:
`Math.round(v * 10^n) / 10^n`. -/
def roundQ (v : ℚ) (n : ℕ) : ℚ :=
  qDiv ((jsMathRound (qMul v ((10 ^ n : ℕ) : ℚ)) : ℤ) : ℚ) ((10 ^ n : ℕ) : ℚ)

/-! ### Data model: records and dataset state -/

/-- A JSON cell value: number or string (no claim exercises JSON `null`). -/
inductive Value where
  | num (q : ℚ)
  | str (s : String)
deriving DecidableEq, Repr

/-- A record: ordered mapping from column name to value (JS object). -/
def Row : Type := List (String × Value)

instance : DecidableEq Row := inferInstanceAs (DecidableEq (List (String × Value)))

/-- `r[c]` — `none` models JS `undefined`. -/
def rowGet (r : Row) (c : String) : Option Value :=
  (r.find? (fun kv => kv.1 = c)).map Prod.snd

/-- JS `parseFloat(v)` on an object field (`undefined` parses to `NaN`;
a number parses to itself; a string through the string parser). -/
def valPF : Option Value → Option ℚ
  | some (.num q) => some q
  | some (.str s) => jsParseFloatStr s
  | none => none

/-- JS `String(v)` for a field (`String(undefined) = "undefined"`).
Numbers render through `ratToString`. -/
def valToString : Option Value → String
  | some (.num q) => ratToString q
  | some (.str s) => s
  | none => "undefined"

/-- The module-level state of a renderer: loaded data plus derived column
metadata (`DATA`, `COLUMNS`, `NUMERIC_COLS`, `LABEL_COL`). -/
structure DState where
  DATA : List Row
  COLUMNS : List String
  NUMERIC_COLS : List String
  LABEL_COL : String

/-! ### The regex matchers of `src/renderer/renderer.js`

Word boundaries, alternation order, greedy `.*` (last viable tail), lazy
`.*?` (first viable tail) are implemented exactly as the JS engine resolves
them for the specific patterns in the source. -/

/-- Is the character at index `i` a word character (`false` out of range)? -/
def wordAt (cs : List Char) (i : ℕ) : Bool :=
  match cs.get? i with
  | some c => isWordC c
  | none => false

/-- `\b` holds between positions `i-1` and `i`. -/
def boundaryAt (cs : List Char) (i : ℕ) : Bool :=
  (if i = 0 then false else wordAt cs (i - 1)) != wordAt cs i

/-- Match `\b(alt₁|alt₂|…)\b` at position `i`, alternatives tried left to
right; returns the matched alternative and the end position. -/
def altWordEndAt (cs : List Char) (alts : List String) (i : ℕ) : Option (String × ℕ) :=
  alts.findSome? fun a =>
    if boundaryAt cs i && litAt cs i a.data && boundaryAt cs (i + a.data.length) then
      some (a, i + a.data.length)
    else none

/-- Match `\bword\s+([^\?]+)` at position `j` and return the capture.
The `\s+` is greedy; if nothing non-`'?'` follows the whitespace run, the
group backtracks onto the final whitespace character. -/
def tailCaptureAt (cs : List Char) (word : List Char) (j : ℕ) : Option (List Char) :=
  if boundaryAt cs j && litAt cs j word then
    let after := cs.drop (j + word.length)
    let w := after.takeWhile isWsC
    let rest := after.drop w.length
    if w.length = 0 then none
    else
      match rest with
      | c :: _ => if c = '?' then (if w.length ≥ 2 then some [w.getLast!] else none)
                  else some (rest.takeWhile (· ≠ '?'))
      | [] => if w.length ≥ 2 then some [w.getLast!] else none
  else none

/-- Greedy `.*\bword\s+([^\?]+)` from position `lo`: the LAST `j ≥ lo` whose
tail matches wins, and `.*` must not cross a newline. -/
def lastTailCapture (cs : List Char) (word : List Char) (lo : ℕ) : Option (List Char) :=
  (List.range (cs.length + 1)).foldl
    (fun acc j =>
      if lo ≤ j && ((cs.drop lo).take (j - lo)).all (· ≠ '\n') then
        match tailCaptureAt cs word j with
        | some cap => some cap
        | none => acc
      else acc)
    none

/-- `capture.trim().split(/\s+/)[0]` (an all-whitespace capture yields `""`,
matching JS `"".split(/\s+/) = [""]`). -/
def colRawOfCapture (cap : List Char) : String :=
  match jsSplitWs (jsTrim (String.mk cap)) with
  | [] => ""
  | t :: _ => t

/-- `q.match(/\b(média|media|médias|average)\b.*\bde\s+([^\?]+)/)` reduced to
the data the source consumes: the first whitespace token of the trimmed
second capture.  The engine takes the leftmost start position at which both
the trigger word and some `de`-tail match. -/
def meanMatch (q : String) : Option String :=
  let cs := q.data
  (List.range (cs.length + 1)).findSome? fun i =>
    match altWordEndAt cs ["média", "media", "médias", "average"] i with
    | none => none
    | some (_, e) => (lastTailCapture cs "de".data e).map colRawOfCapture

/-- Prefix `\btop\s*(\d+)\b` at position `i`: returns the digit group and
its end position. -/
def topDigitsAt (cs : List Char) (i : ℕ) : Option (String × ℕ) :=
  if boundaryAt cs i && litAt cs i "top".data then
    let after := cs.drop (i + 3)
    let w := after.takeWhile isWsC
    let ds := (after.drop w.length).takeWhile isDigitC
    let dEnd := i + 3 + w.length + ds.length
    if ds.isEmpty then none
    else if boundaryAt cs dEnd then some (String.mk ds, dEnd) else none
  else none

/-- `q.match(/\btop\s*(\d+)\b.*\bpor\s+([^\?]+)/)`: group 1 (the digits) and
the derived column token. -/
def topRegex1 (cs : List Char) : Option (String × String) :=
  (List.range (cs.length + 1)).findSome? fun i =>
    match topDigitsAt cs i with
    | none => none
    | some (ds, dEnd) =>
      (lastTailCapture cs "por".data dEnd).map fun cap => (ds, colRawOfCapture cap)

/-- `q.match(/\b(maiores|melhores|top)\b.*\bpor\s+([^\?]+)/)`: group 1 (the
trigger word itself!) and the derived column token. -/
def topRegex2 (cs : List Char) : Option (String × String) :=
  (List.range (cs.length + 1)).findSome? fun i =>
    match altWordEndAt cs ["maiores", "melhores", "top"] i with
    | none => none
    | some (w, e) =>
      (lastTailCapture cs "por".data e).map fun cap => (w, colRawOfCapture cap)

/-- The source's `topMatch = q.match(regex1) || q.match(regex2)`, reduced to
(group 1, column token). -/
def topMatchRaw (q : String) : Option (String × String) :=
  match topRegex1 q.data with
  | some r => some r
  | none => topRegex2 q.data

/-! ### The composite-filter extraction loop

`const filterRegex = /\b(tamanho|size|…|acidity)\b.*?(>=|<=|>|<|=)\s*([0-9\.,-]+)/g`
followed by `while ((match = filterRegex.exec(q)) !== null) …`. -/

/-- The column-keyword alternation of the filter regex, in source order. -/
def filterKwAlts : List String :=
  ["tamanho", "size", "peso", "weight", "doce", "doçura", "sweetness",
   "crocancia", "crocância", "crunchiness", "suculencia", "suculência",
   "juiciness", "maturacao", "maturação", "ripeness", "acidez", "acidity"]

/-- The number-literal class `[0-9\.,-]`. -/
def isNumLitC (c : Char) : Bool :=
  isDigitC c || c = '.' || c = ',' || c = '-'

/-- `(>=|<=|>|<|=)\s*([0-9\.,-]+)` anchored at position `p`: operators tried
left to right (a two-character operator whose number fails falls back to its
one-character prefix, which then also fails on the leftover `=`; iterating
the alternation in order reproduces this). -/
def opCompletionAt (cs : List Char) (p : ℕ) : Option (String × String × ℕ) :=
  [">=", "<=", ">", "<", "="].findSome? fun op =>
    if litAt cs p op.data then
      let after := cs.drop (p + op.data.length)
      let w := after.takeWhile isWsC
      let num := (after.drop w.length).takeWhile isNumLitC
      if num.isEmpty then none
      else some (op, String.mk num, p + op.data.length + w.length + num.length)
    else none

/-- Lazy `.*?(op…)`: the FIRST viable operator position `p ≥ e`, the skipped
span containing no newline. -/
def firstOpCompletion (cs : List Char) (e : ℕ) : Option (String × String × ℕ) :=
  (List.range (cs.length + 1)).findSome? fun p =>
    if e ≤ p && ((cs.drop e).take (p - e)).all (· ≠ '\n') then opCompletionAt cs p
    else none

/-- One `exec` step from index `pos`: leftmost start at which a keyword
(with word boundaries) and a viable lazy tail both match; returns
`(keyword, operator, number-text)` and the index one past the match. -/
def findFilterMatch (cs : List Char) (pos : ℕ) : Option ((String × String × String) × ℕ) :=
  (List.range (cs.length + 1)).findSome? fun i =>
    if pos ≤ i then
      match altWordEndAt cs filterKwAlts i with
      | none => none
      | some (kw, e) =>
        (firstOpCompletion cs e).map fun r => ((kw, r.1, r.2.1), r.2.2)
    else none

/-- The `while (exec)` loop; fuel-based recursion (each match ends strictly
beyond where it began, so `length + 1` steps always suffice). -/
def filterLoop (cs : List Char) : ℕ → ℕ → List (String × String × String)
  | 0, _ => []
  | fuel + 1, pos =>
    match findFilterMatch cs pos with
    | none => []
    | some (t, fin) => t :: filterLoop cs fuel (max fin (pos + 1))

/-- All `(keyword, op, number-text)` triples the source extracts from `q`. -/
def filterMatches (q : String) : List (String × String × String) :=
  filterLoop q.data (q.data.length + 1) 0

/-! ### JS `Array.prototype.sort` with a descending numeric comparator

ECMAScript requires `sort` to be stable; a stable sort by a total preorder
is the unique permutation that is sorted by the lexicographic order
(comparator first, original index second) on index-decorated elements. -/

/-- The lexicographic order used to model a stable descending sort by
`key`: larger key first, ties by original position. -/
def lexGE (key : α → ℚ) (a b : ℕ × α) : Prop :=
  key b.2 < key a.2 ∨ (key a.2 = key b.2 ∧ a.1 ≤ b.1)

instance (key : α → ℚ) : DecidableRel (lexGE key) := fun _ _ => by
  unfold lexGE; infer_instance

instance (key : α → ℚ) : IsTotal (ℕ × α) (lexGE key) where
  total a b := by
    rcases lt_trichotomy (key a.2) (key b.2) with h | h | h
    · exact Or.inr (Or.inl h)
    · rcases Nat.le_total a.1 b.1 with hi | hi
      · exact Or.inl (Or.inr ⟨h, hi⟩)
      · exact Or.inr (Or.inr ⟨h.symm, hi⟩)
    · exact Or.inl (Or.inl h)

instance (key : α → ℚ) : IsTrans (ℕ × α) (lexGE key) where
  trans a b c hab hbc := by
    rcases hab with h1 | ⟨e1, i1⟩
    · rcases hbc with h2 | ⟨e2, _⟩
      · exact Or.inl (h2.trans h1)
      · exact Or.inl (e2 ▸ h1)
    · rcases hbc with h2 | ⟨e2, i2⟩
      · exact Or.inl (by rw [e1]; exact h2)
      · exact Or.inr ⟨e1.trans e2, i1.trans i2⟩

/-- The index-decorated stable sort. -/
def jsSortDescEnum (key : α → ℚ) (l : List α) : List (ℕ × α) :=
  List.insertionSort (lexGE key) l.enum

/-- `l.slice().sort((a, b) => key(b) - key(a))` — stable descending sort. -/
def jsStableSortDesc (key : α → ℚ) (l : List α) : List α :=
  (jsSortDescEnum key l).map Prod.snd

/-- `arr.slice(0, n)` where `n` is a JS number (`none` = `NaN` → 0,
negative counts from the end). -/
def sliceEnd (n : Option ℤ) (len : ℕ) : ℕ :=
  match n with
  | none => 0
  | some z => if z < 0 then len - min len z.natAbs else min z.toNat len

/-- `", ".join`-style helper (`Array.prototype.join`). -/
def joinSep (sep : String) (l : List String) : String :=
  String.mk (List.intercalate sep.data (l.map String.data))

/-! ## `src/renderer/renderer.js` — the main renderer -/

namespace Renderer

/-- `COL_ALIASES` (pt-br / en token → canonical column). -/
def COL_ALIASES : List (String × String) :=
  [("tamanho", "Size"), ("size", "Size"),
   ("peso", "Weight"), ("weight", "Weight"),
   ("doce", "Sweetness"), ("doçura", "Sweetness"), ("sweetness", "Sweetness"),
   ("crocancia", "Crunchiness"), ("crocância", "Crunchiness"), ("crunchiness", "Crunchiness"),
   ("suculencia", "Juiciness"), ("suculência", "Juiciness"), ("juiciness", "Juiciness"),
   ("maturacao", "Ripeness"), ("maturação", "Ripeness"), ("ripeness", "Ripeness"),
   ("acidez", "Acidity"), ("acidity", "Acidity"),
   ("qualidade", "Quality"), ("quality", "Quality")]

def aliasLookup (t : String) : Option String :=
  (COL_ALIASES.find? (fun kv => kv.1 = t)).map Prod.snd

/-- `COL_ALIASES[colRaw] || ucfirst(colRaw)`. -/
def resolveCol (t : String) : String :=
  (aliasLookup t).getD (ucfirst t)

/-- The numeric-column heuristic of `initDatasetStructures`: among the first
20 records' defined values, at least `max(1, ⌊0.6·|sample|⌋)` parse as
numbers.  (`⌊0.6·n⌋` is computed exactly; for the sample sizes occurring
here the double-precision product is exact as well.) -/
def numericHeuristic (data : List Row) (c : String) : Bool :=
  let sample := (data.take 20).filterMap (fun r => rowGet r c)
  let numCount := sample.countP fun v =>
    match v with
    | .num _ => true
    | .str s => (jsParseFloatStr s).isSome
  numCount ≥ max 1 (sample.length * 3 / 5)

/-- `initDatasetStructures(arr)`.  (The source initialises `LABEL_COL` to
`'Quality'` and re-assigns `'Quality'` when the column list contains it, so
the label column is always `'Quality'`.) -/
def initDatasetStructures (arr : List Row) : DState :=
  let cols := (arr.head?.map (fun r => r.map Prod.fst)).getD []
  { DATA := arr
    COLUMNS := cols
    NUMERIC_COLS := cols.filter (numericHeuristic arr)
    LABEL_COL := "Quality" }

/-- `mean(values)`: parse every value, keep non-`NaN`, `null` on empty. -/
def mean (values : List (Option Value)) : Option ℚ :=
  let nums := values.filterMap valPF
  if nums.isEmpty then none
  else some (qDiv (nums.foldl qAdd 0) (nums.length : ℚ))

/-- The variance computed inside `std(values)`:
`nums.reduce((s, x) => s + Math.pow(x - m, 2), 0) / nums.length`. -/
def variance (values : List (Option Value)) : Option ℚ :=
  match mean values with
  | none => none
  | some m =>
    let nums := values.filterMap valPF
    some (qDiv (nums.foldl (fun s x => qAdd s (qMul (qSub x m) (qSub x m))) 0) (nums.length : ℚ))

/-- `std(values) = Math.sqrt(variance)` — the exact real value reported. -/
noncomputable def std (values : List (Option Value)) : Option ℝ :=
  (variance values).map fun q => Real.sqrt (q : ℝ)

/-- Fuel-based Newton iteration for the integer square root (the library
`Nat.sqrt` is defined by well-founded recursion and does not reduce in the
kernel). -/
def sqrtIter : ℕ → ℕ → ℕ → ℕ
  | 0, _, x => x
  | fuel + 1, n, x =>
    let y := (x + n / x) / 2
    if x ≤ y then x else sqrtIter fuel n y

def natSqrtFuel (n : ℕ) : ℕ :=
  if n ≤ 1 then n else sqrtIter ((Nat.toDigits 10 n).length * 4 + 4) n n

/-- Rational approximation of `Math.sqrt` used only to render the standard
deviation inside the mean-branch answer string (accurate to `10⁻⁸`, well
inside the 4-decimal display rounding; no claim constrains this text). -/
def ratSqrtApprox (q : ℚ) : ℚ :=
  if q ≤ 0 then 0
  else qDiv (natSqrtFuel (qMul q ((10 ^ 16 : ℕ) : ℚ)).floor.toNat : ℚ) ((10 ^ 8 : ℕ) : ℚ)

def stdDisplay (values : List (Option Value)) : Option ℚ :=
  (variance values).map ratSqrtApprox

/-- `round(v, n)` on a possibly-`null` number (`round(null) = null`). -/
def roundOpt (v : Option ℚ) (n : ℕ) : Option ℚ :=
  v.map (roundQ · n)

/-- Template-literal rendering of a possibly-`null` number. -/
def renderOptQ : Option ℚ → String
  | none => "null"
  | some q => ratToString q

/-- `round(r[col], n)` on a raw field: `undefined` passes through, a string
is coerced by `Number` (`isNaN` check) and rounded when coercible, kept
verbatim otherwise. -/
def roundVal (v : Option Value) (n : ℕ) : Option Value :=
  match v with
  | none => none
  | some (.num q) => some (.num (roundQ q n))
  | some (.str s) =>
    match jsNumberOfString s with
    | none => some (.str s)
    | some x => some (.num (roundQ x n))

/-- `LABEL_PRETTY(row)`: label value (`?? ''`) plus the rounded first
numeric column when one exists. -/
def LABEL_PRETTY (st : DState) (r : Row) : String :=
  let ql := match rowGet r st.LABEL_COL with
            | none => ""
            | some v => valToString (some v)
  match st.NUMERIC_COLS with
  | [] => ql
  | c :: _ => ql ++ " / " ++ valToString (roundVal (rowGet r c) 4)

def qualityGood : List String := ["good", "boa", "boas", "bom", "bons"]
def qualityBad : List String := ["bad", "ruim", "ruins"]
def countTriggers : List String := ["quantas", "quantos", "conta", "contagem", "total"]
def summaryTriggers : List String :=
  ["resumo", "sumário", "estatística", "estatisticas", "descrição",
   "quantas linhas", "tamanho do dataset", "quantidade"]

/-- `String(r[LABEL_COL]).toLowerCase().includes(k)` over a keyword family. -/
def labelMatches (st : DState) (kws : List String) (r : Row) : Bool :=
  kws.any fun k => strContains (jsToLower (valToString (rowGet r st.LABEL_COL))) k

def countAnswer (st : DState) : String :=
  let good := (st.DATA.filter (labelMatches st qualityGood)).length
  let bad := (st.DATA.filter (labelMatches st qualityBad)).length
  "Totais:\nGood/Boas: " ++ toString good ++ "\nBad/Ruins: " ++ toString bad ++
    "\n(Total: " ++ toString st.DATA.length ++ ")"

def summaryAnswer (st : DState) : String :=
  "Dataset processado: " ++ toString st.DATA.length ++ " linhas × " ++
    toString st.COLUMNS.length ++ " colunas.\nColunas principais: " ++
    joinSep ", " st.COLUMNS ++
    "\nNota: os atributos numéricos foram pré-processados (p.ex. escalonados)."

def meanAnswer (st : DState) (colRaw : String) : String :=
  let col := resolveCol colRaw
  if st.NUMERIC_COLS.contains col then
    let vals := (st.DATA.map (fun r => rowGet r col)).filter (fun v => (valPF v).isSome)
    "Média (" ++ col ++ "): " ++ renderOptQ (roundOpt (mean vals) 4) ++
      "\nDesvio padrão: " ++ renderOptQ (roundOpt (stdDisplay vals) 4) ++
      "\n(Valores escalados pelo preprocessing—StandardScaler)"
  else
    "Coluna '" ++ colRaw ++ "' não encontrada ou não é numérica. Colunas disponíveis: " ++
      joinSep ", " st.NUMERIC_COLS

/-- `COL_ALIASES[colRaw] || (colRaw ? ucfirst(colRaw) : null)`. -/
def resolveTopCol (colRaw : String) : Option String :=
  match aliasLookup colRaw with
  | some c => some c
  | none => if colRaw = "" then none else some (ucfirst colRaw)

def topErrMsg (st : DState) : String :=
  "Não entendi a coluna para ordenar. Exemplo: 'top 5 por sweetness'. Colunas numéricas: " ++
    joinSep ", " st.NUMERIC_COLS

/-- `(parseFloat(r[col]) || 0)` — the sort key (NaN coerces to 0). -/
def sortKey (col : String) (r : Row) : ℚ :=
  (valPF (rowGet r col)).getD 0

/-- JS number rendering inside the `Top ${n} por …` header. -/
def renderIntOpt : Option ℤ → String
  | none => "NaN"
  | some z => toString z

def topAnswer (st : DState) (n : Option ℤ) (colRaw : String) : String :=
  match resolveTopCol colRaw with
  | none => topErrMsg st
  | some col =>
    if st.NUMERIC_COLS.contains col then
      let sorted := (jsStableSortDesc (sortKey col) st.DATA).take (sliceEnd n st.DATA.length)
      let lines := sorted.enum.map fun p =>
        toString (p.1 + 1) ++ ". " ++ LABEL_PRETTY st p.2 ++ " — " ++ col ++ ": " ++
          valToString (roundVal (rowGet p.2 col) 4)
      "Top " ++ renderIntOpt n ++ " por " ++ col ++ ":\n" ++ joinSep "\n" lines ++
        "\n(Valores escalados pelo preprocessing)"
    else topErrMsg st

/-- One resolved comparison filter. -/
structure Filter where
  col : String
  op : String
  threshold : Option ℚ
deriving DecidableEq

/-- The extraction loop body: parse the threshold (`','` normalised to
`'.'` first), resolve the column, and keep the triple iff the column is
numeric (the `compFn` table defines every operator the regex can produce,
so `if (compFn)` never rejects). -/
def buildFilters (st : DState) : List (String × String × String) → List Filter
  | [] => []
  | (raw, op, num) :: rest =>
    let threshold := jsParseFloatStr (replaceFirst num ',' '.')
    let col := resolveCol raw
    if st.NUMERIC_COLS.contains col then
      { col := col, op := op, threshold := threshold } :: buildFilters st rest
    else buildFilters st rest

/-- JS numeric comparison for one operator (`'='` is `===`). -/
def cmpNums (op : String) (x t : ℚ) : Bool :=
  if op = ">" then x > t
  else if op = "<" then x < t
  else if op = ">=" then x ≥ t
  else if op = "<=" then x ≤ t
  else x = t

/-- `f.compFn(r[f.col])`: every comparison involving `NaN` is `false`. -/
def filterSat (f : Filter) (r : Row) : Bool :=
  match valPF (rowGet r f.col), f.threshold with
  | some x, some t => cmpNums f.op x t
  | _, _ => false

def filterAnswer (st : DState) (fs : List Filter) : String :=
  let matched := st.DATA.filter fun r => fs.all (filterSat · r)
  let sample := (matched.take 6).map fun r =>
    LABEL_PRETTY st r ++ " — " ++
      joinSep " | " (fs.map fun f => f.col ++ ": " ++ valToString (roundVal (rowGet r f.col) 4))
  "Encontradas " ++ toString matched.length ++
    " linhas que satisfazem os filtros.\nAmostra:\n" ++ joinSep "\n" sample ++
    "\n(Valores escalados pelo preprocessing)"

/-- `Object.entries(qualityKeywords).find(…)` — `good` is tried first. -/
def labelFind (ws : List String) : Option String :=
  if ws.any (fun w => qualityGood.contains w) then some "good"
  else if ws.any (fun w => qualityBad.contains w) then some "bad"
  else none

def labelAnswer (st : DState) (labelKey : String) : String :=
  let kws := if labelKey = "good" then qualityGood else qualityBad
  let relevant := st.DATA.filter (labelMatches st kws)
  if relevant.isEmpty then
    "Não foram encontradas amostras para '" ++ labelKey ++ "'."
  else
    let lines := st.NUMERIC_COLS.map fun col =>
      col ++ ": " ++ renderOptQ (roundOpt (mean (relevant.map (fun r => rowGet r col))) 4)
    "Resumo das amostras rotuladas como '" ++ labelKey ++
      "' (médias dos atributos — escalados):\n" ++ joinSep "\n" lines ++
      "\n(Valores escalados pelo preprocessing)"

def helpMsg (st : DState) : String :=
  "Desculpe — não entendi a pergunta. Exemplos de perguntas que eu entendo:\n" ++
  "• \"Quantas boas\" — contagem por quality\n" ++
  "• \"Quantas ruins\"\n" ++
  "• \"Média de sweetness\"\n" ++
  "• \"Top 5 por Juiciness\"\n" ++
  "• \"tamanho > 0.5 e sweetness > 0.3\"\n\n" ++
  "Colunas numéricas disponíveis: " ++ joinSep ", " st.NUMERIC_COLS

/-- The count-by-label trigger: some whitespace token is a counting word AND
some whitespace token is a label keyword (exact token membership). -/
def countCond (q : String) : Bool :=
  let ws := jsSplitWs q
  ws.any (fun w => countTriggers.contains w) &&
    ws.any (fun w => (qualityGood ++ qualityBad).contains w)

/-- The summary trigger: some trigger phrase occurs as a SUBSTRING. -/
def summaryCond (q : String) : Bool :=
  summaryTriggers.any fun t => strContains q t

/-- `answerFromData(question)` — the keyword/pattern classification cascade,
in source order: count-by-label, summary, mean-of-column, top-N,
composite filters, label profile, help fallback. -/
def answerFromData (st : DState) (question : String) : String :=
  let q := jsToLower (jsTrim question)
  if countCond q then
    countAnswer st
  else if summaryCond q then
    summaryAnswer st
  else
    match meanMatch q with
    | some colRaw => meanAnswer st colRaw
    | none =>
      match topMatchRaw q with
      | some (g1, colRaw) =>
        topAnswer st (if g1 ≠ "" then jsParseIntDec g1 else some 5) colRaw
      | none =>
        let fs := buildFilters st (filterMatches q)
        if fs.isEmpty then
          match labelFind (jsSplitWs q) with
          | some k => labelAnswer st k
          | none => helpMsg st
        else filterAnswer st fs

end Renderer

/-! ## `public/script/renderer.js` — the pipeline-integrated renderer -/

namespace Pub

/-- `COL_ALIASES` of this variant (Portuguese tokens only). -/
def COL_ALIASES : List (String × String) :=
  [("tamanho", "Size"), ("peso", "Weight"), ("doçura", "Sweetness"), ("doce", "Sweetness"),
   ("crocância", "Crunchiness"), ("crocancia", "Crunchiness"), ("suculência", "Juiciness"),
   ("suculencia", "Juiciness"), ("maturação", "Ripeness"), ("maturacao", "Ripeness"),
   ("acidez", "Acidity"), ("qualidade", "Quality")]

def aliasLookup (t : String) : Option String :=
  (COL_ALIASES.find? (fun kv => kv.1 = t)).map Prod.snd

/-- Load-time value conversion: strings with a parseable prefix become that
number (`isNaN(parseFloat(v)) ? v : parseFloat(v)`). -/
def convertVal : Value → Value
  | .num q => .num q
  | .str s =>
    match jsParseFloatStr s with
    | some x => .num x
    | none => .str s

def convertRow (r : Row) : Row :=
  r.map fun kv => (jsTrim kv.1, convertVal kv.2)

/-- This variant's numeric heuristic: over the first 30 records (missing
fields included in the denominator), at least 60 % must be numbers. -/
def numericHeuristic (data : List Row) (c : String) : Bool :=
  let sample := (data.take 30).map fun r => rowGet r c
  let nums := sample.countP fun v =>
    match v with
    | some (.num _) => true
    | _ => false
  nums * 5 ≥ sample.length * 3

def initDatasetStructures (arr : List Row) : DState :=
  let data := arr.map convertRow
  let cols := (data.head?.map (fun r => r.map Prod.fst)).getD []
  { DATA := data
    COLUMNS := cols
    NUMERIC_COLS := cols.filter (numericHeuristic data)
    LABEL_COL := "Quality_encoded" }

/-- `mean = arr => arr.reduce((a, b) => a + b, 0) / arr.length` — on an
empty array this is `0/0 = NaN`, modelled as `none`. -/
def meanQ (l : List ℚ) : Option ℚ :=
  if l.isEmpty then none else some (qDiv (l.foldl qAdd 0) (l.length : ℚ))

/-- `round(mean, 4)` rendered by a template literal (this variant's `round`
has no `NaN` guard, so `NaN` propagates to the string `"NaN"`). -/
def renderRounded4 : Option ℚ → String
  | none => "NaN"
  | some q => ratToString (roundQ q 4)

/-- Character class of the capture in `/m[eé]dia de ([\wçãõáéíóú]+)/`. -/
def pubClassChar (c : Char) : Bool :=
  isWordC c || c = 'ç' || c = 'ã' || c = 'õ' || c = 'á' || c = 'é' ||
    c = 'í' || c = 'ó' || c = 'ú'

/-- `q.match(/m[eé]dia de ([\wçãõáéíóú]+)/)` — no word boundaries, a single
literal space on each side of `de`, greedy nonempty capture; leftmost
occurrence wins. -/
def pubMeanMatch (q : String) : Option String :=
  let cs := q.data
  (List.range (cs.length + 1)).findSome? fun i =>
    if litAt cs i ['m'] && (cs.get? (i + 1) = some 'e' || cs.get? (i + 1) = some 'é') &&
       litAt cs (i + 2) "dia de ".data then
      let cap := (cs.drop (i + 9)).takeWhile pubClassChar
      if cap.isEmpty then none else some (String.mk cap)
    else none

/-- The `NotFound` message of the mean branch: quoted resolved name, a
"Talvez você quis dizer" line listing every column whose lowercased name
contains the token's first three characters (omitted when empty), and the
full column list. -/
def notFoundMsg (st : DState) (col entrada : String) : String :=
  let sugestoes := joinSep ", " (st.COLUMNS.filter fun c => strContains (jsToLower c) (strTake entrada 3))
  let sugTxt := if sugestoes = "" then "" else "\nTalvez você quis dizer: " ++ sugestoes
  "Coluna '" ++ col ++ "' não encontrada." ++ sugTxt ++ "\nColunas disponíveis: " ++
    joinSep ", " st.COLUMNS

/-- The distinct non-numeric message of the mean branch. -/
def nonNumericMsg (st : DState) (col : String) : String :=
  "A coluna '" ++ col ++ "' não é numérica.\nColunas numéricas: " ++ joinSep ", " st.NUMERIC_COLS

def fallbackMsg : String :=
  "Não entendi.\nExemplos:\n• \"Quantas boas\"\n• \"Média de sweetness\"\n• \"Resumo do dataset\""

/-- `answerFromData(q)` of this variant: count (substring triggers!), mean
with two distinct failure messages, summary, fallback. -/
def answerFromData (st : DState) (question : String) : String :=
  let q := jsToLower question
  if strContains q "quantas" || strContains q "quantos" then
    let boas := (st.DATA.filter fun r =>
      rowGet r "Quality_encoded" = some (.num 1) || rowGet r "Quality_encoded" = some (.str "1")).length
    let ruins := (st.DATA.filter fun r =>
      rowGet r "Quality_encoded" = some (.num 0) || rowGet r "Quality_encoded" = some (.str "0")).length
    "Total: " ++ toString st.DATA.length ++ "\nBoas: " ++ toString boas ++ "\nRuins: " ++ toString ruins
  else
    match pubMeanMatch q with
    | some entradaRaw =>
      let entrada := jsToLower entradaRaw
      let col := (aliasLookup entrada).getD (ucfirst entrada)
      if st.COLUMNS.contains col then
        if st.NUMERIC_COLS.contains col then
          let vals := st.DATA.filterMap fun r => valPF (rowGet r col)
          "Média (" ++ col ++ "): " ++ renderRounded4 (meanQ vals)
        else nonNumericMsg st col
      else notFoundMsg st col entrada
    | none =>
      if strContains q "resumo" || strContains q "estatíst" then
        "Dataset: " ++ toString st.DATA.length ++ " linhas, " ++ toString st.COLUMNS.length ++
          " colunas.\nNuméricas: " ++ joinSep ", " st.NUMERIC_COLS
      else fallbackMsg

/-! ### Model metrics (`answerFromModels` / `getAnswer`) -/

structure ModelStats where
  accuracy_mean : ℚ
  f1_mean : ℚ
deriving DecidableEq

structure BestModel where
  name : String
  accuracy_mean : ℚ
deriving DecidableEq

/-- `{ best_model: {name, accuracy_mean}, models: { name: {…}, … } }`;
the `models` mapping keeps JS object insertion order. -/
structure Metrics where
  best_model : BestModel
  models : List (String × ModelStats)
deriving DecidableEq

def renderModelLine (k : String) (v : ModelStats) : String :=
  k ++ ": accuracy=" ++ ratToString (roundQ v.accuracy_mean 4) ++
    ", f1=" ++ ratToString (roundQ v.f1_mean 4)

/-- The `for (const [k, v] of Object.entries(models))` loop: first model
whose name the lowercased text contains wins. -/
def findModelAnswer (ql : String) : List (String × ModelStats) → Option String
  | [] => none
  | (k, v) :: rest =>
    if strContains ql k then some (renderModelLine k v) else findModelAnswer ql rest

/-- `answerFromModels(q)`: `null` without metrics; "melhor modelo" reports
the best model; otherwise the first contained model name; else `null`. -/
def answerFromModels (metrics : Option Metrics) (q : String) : Option String :=
  match metrics with
  | none => none
  | some M =>
    let ql := jsToLower q
    if strContains ql "melhor modelo" then
      some ("Melhor modelo: " ++ M.best_model.name ++ " (accuracy média = " ++
        ratToString (roundQ M.best_model.accuracy_mean 4) ++ ")")
    else findModelAnswer ql M.models

/-- `getAnswer(q)`: model questions take priority, then the dataset path. -/
def getAnswer (metrics : Option Metrics) (st : DState) (q : String) : String :=
  match answerFromModels metrics q with
  | some a => a
  | none => answerFromData st q

end Pub

/-! ## `src/nlp/index.js` — static configuration of the trained layer

Only the fixed training/answer configuration is modelled (the trained
classifier itself is a statistical artifact). -/

/-- The greeting utterances registered for intent `smalltalk.greet`. -/
def nlpGreetUtterances : List String := ["oi", "olá", "bom dia"]

/-- The canned answer registered for `smalltalk.greet`. -/
def nlpGreetAnswer : String :=
  "Olá! Pergunte sobre as maçãs — ex.: \"média de sweetness\", \"top 5 por Juiciness\"."

/-! ## Concrete instances used by witnesses and counterexamples -/

/-- The two-row demo dataset of the spec's Scenario 1. -/
def demoRows : List Row :=
  [[("Quality", Value.str "good"), ("Size", Value.num 1)],
   [("Quality", Value.str "bad"), ("Size", Value.num 2)]]

/-- The `Renderer` state after loading `demoRows`
(`COLUMNS = [Quality, Size]`, `NUMERIC_COLS = [Size]`). -/
def demoState : DState := Renderer.initDatasetStructures demoRows

/-- The same data with an encoded label column, loaded by the `Pub`
variant. -/
def pubDemoRows : List Row :=
  [[("Quality", Value.str "good"), ("Size", Value.num 1), ("Quality_encoded", Value.num 1)],
   [("Quality", Value.str "bad"), ("Size", Value.num 2), ("Quality_encoded", Value.num 0)]]

def pubDemoState : DState := Pub.initDatasetStructures pubDemoRows

/-- A two-model metrics summary. -/
def demoMetrics : Pub.Metrics :=
  { best_model := { name := "rf", accuracy_mean := mkRat 9 10 }
    models := [("rf", { accuracy_mean := mkRat 9 10, f1_mean := mkRat 4 5 }),
               ("svm", { accuracy_mean := mkRat 7 10, f1_mean := mkRat 3 5 })] }

/-! ## Helper lemmas -/

/-! ### Bridges between the reducible arithmetic and the field structure -/

theorem qAdd_eq (a b : ℚ) : qAdd a b = a + b := by
  have ha : ((a.den : ℚ)) ≠ 0 := by exact_mod_cast a.den_nz
  have hb : ((b.den : ℚ)) ≠ 0 := by exact_mod_cast b.den_nz
  rw [qAdd, Rat.divInt_eq_div]
  push_cast
  conv_rhs => rw [← Rat.num_div_den a, ← Rat.num_div_den b]
  field_simp

theorem qNeg_eq (a : ℚ) : qNeg a = -a := rfl

theorem qSub_eq (a b : ℚ) : qSub a b = a - b := by
  rw [qSub, qAdd_eq, qNeg_eq, sub_eq_add_neg]

theorem qMul_eq (a b : ℚ) : qMul a b = a * b := by
  have ha : ((a.den : ℚ)) ≠ 0 := by exact_mod_cast a.den_nz
  have hb : ((b.den : ℚ)) ≠ 0 := by exact_mod_cast b.den_nz
  rw [qMul, Rat.divInt_eq_div]
  push_cast
  conv_rhs => rw [← Rat.num_div_den a, ← Rat.num_div_den b]
  field_simp

theorem qDiv_eq (a b : ℚ) : qDiv a b = a / b := by
  rw [qDiv, Rat.divInt_eq_div]
  by_cases hb : b = 0
  · subst hb
    simp
  · have ha : ((a.den : ℚ)) ≠ 0 := by exact_mod_cast a.den_nz
    have hbd : ((b.den : ℚ)) ≠ 0 := by exact_mod_cast b.den_nz
    have hbn : ((b.num : ℚ)) ≠ 0 := by exact_mod_cast Rat.num_ne_zero.mpr hb
    push_cast
    conv_rhs => rw [← Rat.num_div_den a, ← Rat.num_div_den b]
    field_simp

theorem ratFloor_eq (q : ℚ) : q.floor = ⌊q⌋ := by
  rw [Rat.floor_def', Rat.floor_def]

theorem jsMathRound_eq (q : ℚ) : jsMathRound q = ⌊q + 1 / 2⌋ := by
  rw [jsMathRound, ratFloor_eq, qAdd_eq, Rat.mkRat_eq_div]
  norm_num

theorem roundQ_eq (v : ℚ) (n : ℕ) :
    roundQ v n = ((⌊v * 10 ^ n + 1 / 2⌋ : ℤ) : ℚ) / 10 ^ n := by
  rw [roundQ, qDiv_eq, jsMathRound_eq, qMul_eq]
  push_cast
  norm_num



/-- String concatenation acts as list concatenation on the character data. -/
theorem data_append (s t : String) : (s ++ t).data = s.data ++ t.data := rfl

/-- The `reduce((a, b) => a + b, 0)` fold is the list sum. -/
theorem foldl_qAdd_eq_sum (l : List ℚ) (a : ℚ) : l.foldl qAdd a = a + l.sum := by
  induction l generalizing a with
  | nil => simp
  | cons x xs ih => simp [List.foldl_cons, qAdd_eq, ih, add_assoc]

/-- The `reduce((s, x) => s + Math.pow(x - m, 2), 0)` fold is the sum of the
squared deviations. -/
theorem foldl_qAddSq_eq_sum (m : ℚ) (l : List ℚ) (a : ℚ) :
    l.foldl (fun s x => qAdd s (qMul (qSub x m) (qSub x m))) a
      = a + (l.map fun x => (x - m) ^ 2).sum := by
  induction l generalizing a with
  | nil => simp
  | cons x xs ih =>
    rw [List.foldl_cons, ih, qAdd_eq, qMul_eq, qSub_eq, List.map_cons, List.sum_cons]
    ring

/-- The for-loop over the metrics mapping is `find?` followed by rendering. -/
theorem findModelAnswer_eq_find (ql : String) (l : List (String × Pub.ModelStats)) :
    Pub.findModelAnswer ql l
      = (l.find? fun kv => strContains ql kv.1).map fun kv => Pub.renderModelLine kv.1 kv.2 := by
  induction l with
  | nil => rfl
  | cons kv rest ih =>
    rcases kv with ⟨k, v⟩
    by_cases h : strContains ql k = true
    · simp [Pub.findModelAnswer, List.find?, h]
    · simp only [Bool.not_eq_true] at h
      simp [Pub.findModelAnswer, List.find?, h, ih]

/-- The extraction loop body ignores triples whose column does not resolve
to a numeric column: filtering them away first changes nothing. -/
theorem buildFilters_skips_nonnumeric (st : DState) (raws : List (String × String × String)) :
    Renderer.buildFilters st raws
      = Renderer.buildFilters st
          (raws.filter fun m => st.NUMERIC_COLS.contains (Renderer.resolveCol m.1)) := by
  induction raws with
  | nil => rfl
  | cons m rest ih =>
    rcases m with ⟨raw, op, num⟩
    by_cases h : Renderer.resolveCol raw ∈ st.NUMERIC_COLS
    · simp [Renderer.buildFilters, List.filter_cons, h, ih]
    · simp [Renderer.buildFilters, List.filter_cons, h, ih]

/-- `filter` by the Boolean conjunction of all filters counts exactly the
rows satisfying every filter (propositionally). -/
theorem filter_all_length_eq_countP (fs : List Renderer.Filter) (data : List Row) :
    (data.filter fun r => fs.all (Renderer.filterSat · r)).length
      = data.countP fun r => decide (∀ f ∈ fs, Renderer.filterSat f r = true) := by
  rw [← List.countP_eq_length_filter]
  apply List.countP_congr
  intro r _
  by_cases h : ∀ f ∈ fs, Renderer.filterSat f r = true
  · simp [List.all_eq_true.mpr h]
    exact h
  · have hall : fs.all (Renderer.filterSat · r) = false := by
      rcases Bool.eq_false_or_eq_true (fs.all (Renderer.filterSat · r)) with hb | hb
      · exact absurd (List.all_eq_true.mp hb) h
      · exact hb
    simp [hall, h]

/-- The stable sort is a permutation of the index-decorated input. -/
theorem jsSortDescEnum_perm (key : α → ℚ) (l : List α) :
    (jsSortDescEnum key l).Perm l.enum :=
  List.perm_insertionSort _ _

/-- The stable sort is sorted by the lexicographic order. -/
theorem jsSortDescEnum_sorted (key : α → ℚ) (l : List α) :
    List.Sorted (lexGE key) (jsSortDescEnum key l) :=
  List.sorted_insertionSort _ _

/-- Strict form: consecutive-in-order elements have strictly smaller key or
equal key with strictly increasing original index (ties keep input order). -/
theorem jsSortDescEnum_pairwise_strict (key : α → ℚ) (l : List α) :
    (jsSortDescEnum key l).Pairwise
      (fun a b => key b.2 < key a.2 ∨ (key a.2 = key b.2 ∧ a.1 < b.1)) := by
  have hs : (jsSortDescEnum key l).Pairwise (lexGE key) := jsSortDescEnum_sorted key l
  have hnd : ((jsSortDescEnum key l).map Prod.fst).Nodup := by
    have hpm : ((jsSortDescEnum key l).map Prod.fst).Perm (l.enum.map Prod.fst) :=
      (jsSortDescEnum_perm key l).map _
    exact hpm.nodup_iff.mpr (List.nodup_enum_map_fst l)
  have hne : (jsSortDescEnum key l).Pairwise (fun a b => a.1 ≠ b.1) :=
    List.pairwise_map.mp hnd
  refine (hs.and hne).imp ?_
  rintro a b ⟨hab, hne'⟩
  rcases hab with h | ⟨he, hle⟩
  · exact Or.inl h
  · exact Or.inr ⟨he, lt_of_le_of_ne hle hne'⟩

/-- Length of the stable sort. -/
theorem jsSortDescEnum_length (key : α → ℚ) (l : List α) :
    (jsSortDescEnum key l).length = l.length := by
  rw [(jsSortDescEnum_perm key l).length_eq, List.enum_length]

/-! ## Claim theorems -/

/-- Claim C1 (counterexample): in `src/renderer/renderer.js`, the
mean-of-column branch CONFLATES the two failure outcomes.  On the demo
dataset, `Quality` is a known but non-numeric column, yet asking for its
mean produces the same combined "não encontrada ou não é numérica" message
— with no "did you mean" suggestions — that an entirely unknown column
(`flavor`) produces.  This refutes "the two failure outcomes are never
conflated into one message". -/
theorem c1_counterexample :
    demoState.COLUMNS.contains "Quality" = true ∧
    demoState.NUMERIC_COLS.contains "Quality" = false ∧
    Renderer.answerFromData demoState "média de qualidade" =
      "Coluna 'qualidade' não encontrada ou não é numérica. Colunas disponíveis: Size" ∧
    Renderer.answerFromData demoState "média de flavor" =
      "Coluna 'flavor' não encontrada ou não é numérica. Colunas disponíveis: Size" :=
  ⟨rfl, rfl, rfl, rfl⟩

/-- Claim C1 (amended): the claimed behaviour holds of the OTHER renderer,
`public/script/renderer.js`: when the resolved column is unknown the answer
is the `NotFound` message with "did you mean" suggestions, when it is known
but not numeric the answer is the distinct non-numeric message listing the
numeric columns, and those two messages can never coincide (they start with
different characters). -/
theorem c1_amended (st : DState) (q entradaRaw entrada col : String)
    (h1 : strContains (jsToLower q) "quantas" = false)
    (h2 : strContains (jsToLower q) "quantos" = false)
    (h3 : Pub.pubMeanMatch (jsToLower q) = some entradaRaw)
    (he : entrada = jsToLower entradaRaw)
    (hc : col = (Pub.aliasLookup entrada).getD (ucfirst entrada)) :
    (st.COLUMNS.contains col = false →
      Pub.answerFromData st q = Pub.notFoundMsg st col entrada) ∧
    (st.COLUMNS.contains col = true → st.NUMERIC_COLS.contains col = false →
      Pub.answerFromData st q = Pub.nonNumericMsg st col) ∧
    (∀ (st₂ : DState) (c₂ e₂ c₃ : String),
      Pub.notFoundMsg st₂ c₂ e₂ ≠ Pub.nonNumericMsg st₂ c₃) := by
  subst he
  subst hc
  refine ⟨?_, ?_, ?_⟩
  · intro hnc
    have hnc' : (Pub.aliasLookup (jsToLower entradaRaw)).getD (ucfirst (jsToLower entradaRaw))
        ∉ st.COLUMNS := by simpa using hnc
    simp [Pub.answerFromData, h1, h2, h3, hnc']
  · intro hce hnn
    have hce' : (Pub.aliasLookup (jsToLower entradaRaw)).getD (ucfirst (jsToLower entradaRaw))
        ∈ st.COLUMNS := by simpa using hce
    have hnn' : (Pub.aliasLookup (jsToLower entradaRaw)).getD (ucfirst (jsToLower entradaRaw))
        ∉ st.NUMERIC_COLS := by simpa using hnn
    simp [Pub.answerFromData, h1, h2, h3, hce', hnn']
  · intro st₂ c₂ e₂ c₃ h
    have h4 : some 'C' = some 'A' := by
      calc some 'C' = (Pub.notFoundMsg st₂ c₂ e₂).data.head? := rfl
        _ = (Pub.nonNumericMsg st₂ c₃).data.head? := by rw [h]
        _ = some 'A' := rfl
    exact absurd (Option.some.inj h4) (by decide)

/-- Claim C1 (witness): on the converted demo data, `média de flavor` hits
the `NotFound` branch and `média de qualidade` the non-numeric branch. -/
theorem c1_amended_witness :
    (strContains (jsToLower "média de flavor") "quantas" = false ∧
     Pub.pubMeanMatch (jsToLower "média de flavor") = some "flavor" ∧
     pubDemoState.COLUMNS.contains "Flavor" = false ∧
     Pub.answerFromData pubDemoState "média de flavor" =
       Pub.notFoundMsg pubDemoState "Flavor" "flavor") ∧
    (Pub.pubMeanMatch (jsToLower "média de qualidade") = some "qualidade" ∧
     pubDemoState.COLUMNS.contains "Quality" = true ∧
     pubDemoState.NUMERIC_COLS.contains "Quality" = false ∧
     Pub.answerFromData pubDemoState "média de qualidade" =
       Pub.nonNumericMsg pubDemoState "Quality") :=
  ⟨⟨by decide, by decide, by decide,
    (c1_amended pubDemoState "média de flavor" "flavor" "flavor" "Flavor"
      (by decide) (by decide) (by decide) (by decide) (by decide)).1 (by decide)⟩,
   ⟨by decide, by decide, by decide,
    (c1_amended pubDemoState "média de qualidade" "qualidade" "qualidade" "Quality"
      (by decide) (by decide) (by decide) (by decide) (by decide)).2.1
      (by decide) (by decide)⟩⟩

/-- Claim C2 (code-bug evaluation): for the N-less phrasings the source's
`topMatch[1]` is the trigger word itself (always truthy), so
`parseInt('maiores') = NaN` is used instead of the intended default 5:
the header renders `Top NaN` and `slice(0, NaN)` produces NO rows.  With
an explicit count the same dataset does list ranked rows. -/
theorem c2_code_bug :
    Renderer.answerFromData demoState "maiores por size" =
      "Top NaN por Size:\n\n(Valores escalados pelo preprocessing)" ∧
    Renderer.answerFromData demoState "top 5 por size" =
      "Top 5 por Size:\n1. bad / 2 — Size: 2\n2. good / 1 — Size: 1\n(Valores escalados pelo preprocessing)" :=
  ⟨rfl, by decide⟩

/-- Claim C3 (counterexample): the display rounding is NOT
round-half-away-from-zero.  At the claim's own example, `-0.00005` at 4
decimals, `Math.round(-0.5) = -0` gives `0`, not `-0.0001`. -/
theorem c3_counterexample :
    Renderer.roundOpt (some (mkRat (-1) 20000)) 4 = some 0 ∧
    Renderer.roundOpt (some (mkRat (-1) 20000)) 4 ≠ some (mkRat (-1) 10000) := by
  exact ⟨by decide, by decide⟩

/-- Claim C3 (amended): `round(v, n)` returns a multiple of `10^-n` within
half a unit of `v`, with HALFWAY CASES ROUNDED TOWARD `+∞` (round-half-up):
the error upward is strictly below half a unit while the error downward may
reach it; in particular `-0.00005` at 4 decimals rounds to `0` while
`+0.00005` rounds to `0.0001`. -/
theorem c3_round_half_up (v : ℚ) (n : ℕ) :
    (∃ m : ℤ, roundQ v n = (m : ℚ) / 10 ^ n) ∧
    v - roundQ v n < 1 / (2 * 10 ^ n) ∧
    roundQ v n - v ≤ 1 / (2 * 10 ^ n) ∧
    roundQ (mkRat (-1) 20000) 4 = 0 ∧
    roundQ (mkRat 1 20000) 4 = mkRat 1 10000 := by
  have hp : (0 : ℚ) < 10 ^ n := by positivity
  have hround := roundQ_eq v n
  set m : ℤ := ⌊v * 10 ^ n + 1 / 2⌋ with hm
  have h1 : (m : ℚ) ≤ v * 10 ^ n + 1 / 2 := Int.floor_le _
  have h2 : v * 10 ^ n + 1 / 2 < (m : ℚ) + 1 := Int.lt_floor_add_one _
  have e2 : (1 : ℚ) / (2 * 10 ^ n) = 1 / 2 / 10 ^ n := (div_div 1 2 ((10 : ℚ) ^ n)).symm
  have key1 : v - roundQ v n < 1 / (2 * 10 ^ n) := by
    rw [hround]
    have e1 : v - (m : ℚ) / 10 ^ n = (v * 10 ^ n - m) / 10 ^ n := by field_simp
    rw [e1, e2]
    gcongr
    linarith
  have key2 : roundQ v n - v ≤ 1 / (2 * 10 ^ n) := by
    rw [hround]
    have e1 : (m : ℚ) / 10 ^ n - v = ((m : ℚ) - v * 10 ^ n) / 10 ^ n := by
      field_simp
      ring
    rw [e1, e2]
    gcongr
    linarith
  exact ⟨⟨m, by rw [hround]⟩, key1, key2, by decide, by decide⟩

/-- Claim C4: for every question reaching the filter branch with at least
one resolved triple, the reported match count equals the number of rows
satisfying ALL resolved (column, operator, threshold) triples (conjunction,
stated propositionally), the sample is bounded by the first 6 matches, and
triples whose column does not resolve to a numeric column are skipped
without aborting the query. -/
theorem c4_filter_conjunction (st : DState) (q : String)
    (h1 : Renderer.countCond (jsToLower (jsTrim q)) = false)
    (h2 : Renderer.summaryCond (jsToLower (jsTrim q)) = false)
    (h3 : meanMatch (jsToLower (jsTrim q)) = none)
    (h4 : topMatchRaw (jsToLower (jsTrim q)) = none)
    (h5 : Renderer.buildFilters st (filterMatches (jsToLower (jsTrim q))) ≠ []) :
    Renderer.answerFromData st q =
      Renderer.filterAnswer st (Renderer.buildFilters st (filterMatches (jsToLower (jsTrim q)))) ∧
    (st.DATA.filter fun r =>
        (Renderer.buildFilters st (filterMatches (jsToLower (jsTrim q)))).all
          (Renderer.filterSat · r)).length
      = (st.DATA.countP fun r =>
          decide (∀ f ∈ Renderer.buildFilters st (filterMatches (jsToLower (jsTrim q))),
            Renderer.filterSat f r = true)) ∧
    ((st.DATA.filter fun r =>
        (Renderer.buildFilters st (filterMatches (jsToLower (jsTrim q)))).all
          (Renderer.filterSat · r)).take 6).length
      = min 6 (st.DATA.filter fun r =>
          (Renderer.buildFilters st (filterMatches (jsToLower (jsTrim q)))).all
            (Renderer.filterSat · r)).length ∧
    Renderer.buildFilters st (filterMatches (jsToLower (jsTrim q)))
      = Renderer.buildFilters st
          ((filterMatches (jsToLower (jsTrim q))).filter fun m =>
            st.NUMERIC_COLS.contains (Renderer.resolveCol m.1)) := by
  refine ⟨?_, filter_all_length_eq_countP _ _, List.length_take _ _,
    buildFilters_skips_nonnumeric st _⟩
  have hne : (Renderer.buildFilters st (filterMatches (jsToLower (jsTrim q)))).isEmpty = false := by
    rcases hfs : Renderer.buildFilters st (filterMatches (jsToLower (jsTrim q))) with _ | ⟨f, rest⟩
    · exact absurd hfs h5
    · rfl
  simp [Renderer.answerFromData, h1, h2, h3, h4, hne]

/-- Claim C4 (witness): `size > 0.5` on the demo dataset reaches the filter
branch with one resolved triple. -/
theorem c4_witness :
    Renderer.buildFilters demoState (filterMatches (jsToLower (jsTrim "size > 0.5"))) ≠ [] ∧
    Renderer.answerFromData demoState "size > 0.5" =
      Renderer.filterAnswer demoState
        (Renderer.buildFilters demoState (filterMatches (jsToLower (jsTrim "size > 0.5")))) :=
  ⟨by decide,
   (c4_filter_conjunction demoState "size > 0.5"
     (by decide) (by decide) (by decide) (by decide) (by decide)).1⟩

/-- Claim C5: for every question reaching the top-N branch with an explicit
count `N ≥ 1` and a resolvable numeric column, the branch renders exactly
`min N |DATA|` rows, taken from the stable descending sort by the column's
numeric value (unparseable values keyed as 0): the decorated sorted
sequence is a permutation of the indexed data, pairwise ordered by strictly
descending key or equal key with strictly increasing original index
(stable ties), and each listed line carries the 1-based rank `i + 1`. -/
theorem c5_topn (st : DState) (q g1 colRaw col : String) (n : ℕ)
    (h1 : Renderer.countCond (jsToLower (jsTrim q)) = false)
    (h2 : Renderer.summaryCond (jsToLower (jsTrim q)) = false)
    (h3 : meanMatch (jsToLower (jsTrim q)) = none)
    (h4 : topMatchRaw (jsToLower (jsTrim q)) = some (g1, colRaw))
    (h5 : jsParseIntDec g1 = some (n : ℤ))
    (h6 : 1 ≤ n)
    (h7 : Renderer.resolveTopCol colRaw = some col)
    (h8 : st.NUMERIC_COLS.contains col = true) :
    (((jsSortDescEnum (Renderer.sortKey col) st.DATA).take
        (sliceEnd (some (n : ℤ)) st.DATA.length)).map Prod.snd).length
      = min n st.DATA.length ∧
    (jsSortDescEnum (Renderer.sortKey col) st.DATA).Perm st.DATA.enum ∧
    (jsSortDescEnum (Renderer.sortKey col) st.DATA).Pairwise
      (fun a b => Renderer.sortKey col b.2 < Renderer.sortKey col a.2 ∨
        (Renderer.sortKey col a.2 = Renderer.sortKey col b.2 ∧ a.1 < b.1)) ∧
    ((((jsSortDescEnum (Renderer.sortKey col) st.DATA).take
        (sliceEnd (some (n : ℤ)) st.DATA.length)).map Prod.snd).map
          (Renderer.sortKey col)).Sorted (fun x y => y ≤ x) ∧
    Renderer.answerFromData st q =
      "Top " ++ toString (n : ℤ) ++ " por " ++ col ++ ":\n" ++
        joinSep "\n"
          ((((jsSortDescEnum (Renderer.sortKey col) st.DATA).take
              (sliceEnd (some (n : ℤ)) st.DATA.length)).map Prod.snd).enum.map fun p =>
            toString (p.1 + 1) ++ ". " ++ Renderer.LABEL_PRETTY st p.2 ++ " — " ++ col ++ ": " ++
              valToString (Renderer.roundVal (rowGet p.2 col) 4)) ++
        "\n(Valores escalados pelo preprocessing)" := by
  have hg1 : g1 ≠ "" := by
    intro hg
    rw [hg] at h5
    exact Option.noConfusion h5
  have hlen : (jsSortDescEnum (Renderer.sortKey col) st.DATA).length = st.DATA.length :=
    jsSortDescEnum_length _ _
  have hslice : sliceEnd (some (n : ℤ)) st.DATA.length = min n st.DATA.length := by
    simp [sliceEnd, Int.toNat_natCast]
  refine ⟨?_, jsSortDescEnum_perm _ _, jsSortDescEnum_pairwise_strict _ _, ?_, ?_⟩
  · rw [List.length_map, List.length_take, hlen, hslice]
    exact min_assoc n st.DATA.length st.DATA.length ▸ by rw [min_self]
  · have hs : (jsSortDescEnum (Renderer.sortKey col) st.DATA).Pairwise
        (fun a b => Renderer.sortKey col b.2 ≤ Renderer.sortKey col a.2) :=
      (jsSortDescEnum_sorted (Renderer.sortKey col) st.DATA).imp
        (fun hab => by
          rcases hab with h | ⟨he, _⟩
          · exact le_of_lt h
          · exact le_of_eq he.symm)
    have htake := hs.sublist (List.take_sublist (sliceEnd (some (n : ℤ)) st.DATA.length) _)
    exact List.pairwise_map.mpr (List.pairwise_map.mpr htake)
  · simp only [Renderer.answerFromData, h1, h2, h3, h4, Bool.false_eq_true, if_false]
    rw [if_pos hg1, h5]
    simp only [Renderer.topAnswer, h7, h8, if_true]
    conv_rhs => rw [List.map_take]
    rfl

/-- Claim C5 (witness): `top 3 por size` on the two-row demo dataset. -/
theorem c5_witness :
    (1 ≤ 3 ∧ topMatchRaw (jsToLower (jsTrim "top 3 por size")) = some ("3", "size") ∧
     Renderer.resolveTopCol "size" = some "Size") ∧
    Renderer.answerFromData demoState "top 3 por size" =
      "Top " ++ toString ((3 : ℕ) : ℤ) ++ " por " ++ "Size" ++ ":\n" ++
        joinSep "\n"
          ((((jsSortDescEnum (Renderer.sortKey "Size") demoState.DATA).take
              (sliceEnd (some ((3 : ℕ) : ℤ)) demoState.DATA.length)).map Prod.snd).enum.map fun p =>
            toString (p.1 + 1) ++ ". " ++ Renderer.LABEL_PRETTY demoState p.2 ++ " — " ++ "Size" ++ ": " ++
              valToString (Renderer.roundVal (rowGet p.2 "Size") 4)) ++
        "\n(Valores escalados pelo preprocessing)" :=
  ⟨⟨by decide, by decide, by decide⟩,
   (c5_topn demoState "top 3 por size" "3" "size" "Size" 3
     (by decide) (by decide) (by decide) (by decide) (by decide)
     (by decide) (by decide) (by decide)).2.2.2.2⟩

/-- Claim C6: the standard deviation is the POPULATION standard deviation —
for every value list with at least one parseable entry, `std` is the square
root of the sum of squared deviations from the mean divided by the COUNT
(not count − 1) — and it depends only on the parseable entries (non-numeric
entries are discarded, not treated as zero). -/
theorem c6_std_population (values : List (Option Value))
    (h : values.filterMap valPF ≠ []) :
    Renderer.std values =
      some (Real.sqrt ((((values.filterMap valPF).map
          (fun x => (x - (values.filterMap valPF).sum / (values.filterMap valPF).length) ^ 2)).sum
          / (values.filterMap valPF).length : ℚ) : ℝ)) ∧
    ∀ values₂ : List (Option Value),
      values.filterMap valPF = values₂.filterMap valPF →
        Renderer.std values = Renderer.std values₂ := by
  constructor
  · have hne : (values.filterMap valPF).isEmpty = false := by
      rcases hv : values.filterMap valPF with _ | ⟨x, xs⟩
      · exact absurd hv h
      · rfl
    have hmean : Renderer.mean values
        = some ((values.filterMap valPF).sum / (values.filterMap valPF).length) := by
      simp only [Renderer.mean, hne, Bool.false_eq_true, if_false]
      rw [foldl_qAdd_eq_sum, zero_add, qDiv_eq]
    simp only [Renderer.std, Renderer.variance, hmean]
    rw [foldl_qAddSq_eq_sum, zero_add, qDiv_eq]
    simp
  · intro values₂ he
    simp only [Renderer.std, Renderer.variance, Renderer.mean, he]

/-- Claim C6 (witness): `[1, "2", "abc", undefined]` keeps `[1, 2]`;
mean `3/2`, population variance `1/4`. -/
theorem c6_witness :
    ([some (Value.num 1), some (Value.str "2"), some (Value.str "abc"),
      none].filterMap valPF ≠ []) ∧
    Renderer.std [some (Value.num 1), some (Value.str "2"), some (Value.str "abc"), none] =
      some (Real.sqrt (((([some (Value.num 1), some (Value.str "2"), some (Value.str "abc"),
          none].filterMap valPF).map
          (fun x => (x - ([some (Value.num 1), some (Value.str "2"), some (Value.str "abc"),
            none].filterMap valPF).sum /
            ([some (Value.num 1), some (Value.str "2"), some (Value.str "abc"),
              none].filterMap valPF).length) ^ 2)).sum
          / ([some (Value.num 1), some (Value.str "2"), some (Value.str "abc"),
            none].filterMap valPF).length : ℚ) : ℝ)) :=
  ⟨by decide,
   (c6_std_population
     [some (Value.num 1), some (Value.str "2"), some (Value.str "abc"), none]
     (by decide)).1⟩

/-- Claim C7 (counterexample): a triple whose threshold text (`"."`) does
NOT parse is NOT dropped — it is kept with threshold `NaN` — and the
question does not fall through to the help message: it reports
"Encontradas 0 linhas". -/
theorem c7_counterexample :
    Renderer.buildFilters demoState (filterMatches (jsToLower (jsTrim "size > ."))) =
      [{ col := "Size", op := ">", threshold := none }] ∧
    Renderer.answerFromData demoState "size > ." =
      "Encontradas 0 linhas que satisfazem os filtros.\nAmostra:\n\n(Valores escalados pelo preprocessing)" ∧
    Renderer.answerFromData demoState "size > ." ≠ Renderer.helpMsg demoState :=
  ⟨by decide, by decide, by decide⟩

/-- Claim C7 (amended): a filter triple with an unparseable threshold is
KEPT (with threshold `NaN`) whenever its column resolves to a numeric
column; every comparison against `NaN` is false, so such a query reports 0
matches instead of falling through.  Only triples whose column is not
numeric are dropped; when no triple survives (and no label keyword is a
token), the question falls through to the help message. -/
theorem c7_amended :
    (∀ (st : DState) (raw op num : String) (rest : List (String × String × String)),
      jsParseFloatStr (replaceFirst num ',' '.') = none →
      st.NUMERIC_COLS.contains (Renderer.resolveCol raw) = true →
      Renderer.buildFilters st ((raw, op, num) :: rest)
        = { col := Renderer.resolveCol raw, op := op, threshold := none }
            :: Renderer.buildFilters st rest) ∧
    (∀ (f : Renderer.Filter) (r : Row), f.threshold = none →
      Renderer.filterSat f r = false) ∧
    (∀ (st : DState) (q : String),
      Renderer.countCond (jsToLower (jsTrim q)) = false →
      Renderer.summaryCond (jsToLower (jsTrim q)) = false →
      meanMatch (jsToLower (jsTrim q)) = none →
      topMatchRaw (jsToLower (jsTrim q)) = none →
      Renderer.buildFilters st (filterMatches (jsToLower (jsTrim q))) = [] →
      Renderer.labelFind (jsSplitWs (jsToLower (jsTrim q))) = none →
      Renderer.answerFromData st q = Renderer.helpMsg st) := by
  refine ⟨?_, ?_, ?_⟩
  · intro st raw op num rest hnum hcol
    have hcol' : Renderer.resolveCol raw ∈ st.NUMERIC_COLS := by simpa using hcol
    simp [Renderer.buildFilters, hcol', hnum]
  · intro f r hf
    simp [Renderer.filterSat, hf]
  · intro st q h1 h2 h3 h4 h5 h6
    simp [Renderer.answerFromData, h1, h2, h3, h4, h5, h6]

/-- Claim C7 (witness): the kept-`NaN` branch at `("size", ">", ".")`, the
always-false comparison, and the fall-through at `xyz abc`. -/
theorem c7_witness :
    (jsParseFloatStr (replaceFirst "." ',' '.') = none ∧
     Renderer.buildFilters demoState [("size", ">", ".")] =
       [{ col := "Size", op := ">", threshold := none }]) ∧
    Renderer.filterSat { col := "Size", op := ">", threshold := none }
      [("Quality", Value.str "good"), ("Size", Value.num 1)] = false ∧
    Renderer.answerFromData demoState "xyz abc" = Renderer.helpMsg demoState :=
  ⟨⟨by decide,
    (c7_amended.1 demoState "size" ">" "." [] (by decide) (by decide)).trans (by decide)⟩,
   c7_amended.2.1 _ _ (by decide),
   c7_amended.2.2 demoState "xyz abc"
     (by decide) (by decide) (by decide) (by decide) (by decide) (by decide)⟩

set_option maxRecDepth 4000 in
/-- Claim C8 (counterexample): the keyword strategy has NO greeting branch.
`oi` is answered with exactly the same unrecognized-help message as the
gibberish question `xyz abc`, and `bom dia` does not get a fixed friendly
message at all: `bom` is a good-family label keyword, so it triggers the
data-dependent label-profile answer. -/
theorem c8_counterexample :
    Renderer.answerFromData demoState "oi" = Renderer.answerFromData demoState "xyz abc" ∧
    Renderer.answerFromData demoState "oi" =
      "Desculpe — não entendi a pergunta. Exemplos de perguntas que eu entendo:\n• \"Quantas boas\" — contagem por quality\n• \"Quantas ruins\"\n• \"Média de sweetness\"\n• \"Top 5 por Juiciness\"\n• \"tamanho > 0.5 e sweetness > 0.3\"\n\nColunas numéricas disponíveis: Size" ∧
    Renderer.answerFromData demoState "bom dia" =
      "Resumo das amostras rotuladas como 'good' (médias dos atributos — escalados):\nSize: 1\n(Valores escalados pelo preprocessing)" :=
  ⟨rfl, by decide, by decide⟩

/-- Claim C8 (amended): in the keyword strategy, `oi` and `olá` (which
match no trigger) fall through to the unrecognized help message, and
`bom dia` is captured by the earlier label-profile branch because `bom` is
a good-family keyword; the fixed friendly greeting reply exists only in the
trained-NLP layer's configuration, which registers exactly `oi`, `olá` and
`bom dia` as `smalltalk.greet` utterances with a canned answer. -/
theorem c8_amended :
    (∀ st : DState, Renderer.answerFromData st "oi" = Renderer.helpMsg st) ∧
    (∀ st : DState, Renderer.answerFromData st "olá" = Renderer.helpMsg st) ∧
    (∀ st : DState, Renderer.answerFromData st "bom dia" = Renderer.labelAnswer st "good") ∧
    nlpGreetUtterances = ["oi", "olá", "bom dia"] ∧
    nlpGreetAnswer =
      "Olá! Pergunte sobre as maçãs — ex.: \"média de sweetness\", \"top 5 por Juiciness\"." :=
  ⟨fun _ => rfl, fun _ => rfl, fun _ => rfl, rfl, rfl⟩

/-- Claim C9: with a loaded metrics summary and a question not containing
"melhor modelo", `answerFromModels` reports the rounded mean accuracy and
mean F1 of the FIRST model of the mapping whose name the lowercased text
contains (`find?` — first match wins, no aggregation), and `null` when no
name matches or when metrics are absent. -/
theorem c9_model_metrics (M : Pub.Metrics) (q : String)
    (h : strContains (jsToLower q) "melhor modelo" = false) :
    Pub.answerFromModels (some M) q
      = (M.models.find? fun kv => strContains (jsToLower q) kv.1).map
          (fun kv => Pub.renderModelLine kv.1 kv.2) ∧
    Pub.answerFromModels none q = none := by
  constructor
  · simp only [Pub.answerFromModels, h, Bool.false_eq_true, if_false]
    exact findModelAnswer_eq_find _ _
  · rfl

/-- Claim C9 (witness): on a two-model summary, a question containing both
names is answered from the first entry of the mapping (`rf`), and the
reply carries the rounded accuracy and F1. -/
theorem c9_witness :
    strContains (jsToLower "como vai o svm e o rf") "melhor modelo" = false ∧
    Pub.answerFromModels (some demoMetrics) "como vai o svm e o rf"
      = (demoMetrics.models.find? fun kv =>
          strContains (jsToLower "como vai o svm e o rf") kv.1).map
            (fun kv => Pub.renderModelLine kv.1 kv.2) :=
  ⟨by decide, (c9_model_metrics demoMetrics "como vai o svm e o rf" (by decide)).1⟩

/-- Claim C10: the count-by-label and label-profile branches match their
keywords only as exact whitespace tokens, so `quantas boas?` (punctuation
attached) is recognized by neither and falls through to the help message,
while `quantas boas` hits the count branch and `boas` alone the
label-profile branch; summary triggers, by contrast, match by substring, so
`resumo?` still produces the summary answer. -/
theorem c10_token_vs_substring :
    (∀ st : DState, Renderer.answerFromData st "quantas boas?" = Renderer.helpMsg st) ∧
    (∀ st : DState, Renderer.answerFromData st "quantas boas" = Renderer.countAnswer st) ∧
    (∀ st : DState, Renderer.answerFromData st "boas?" = Renderer.helpMsg st) ∧
    (∀ st : DState, Renderer.answerFromData st "boas" = Renderer.labelAnswer st "good") ∧
    (∀ st : DState, Renderer.answerFromData st "resumo?" = Renderer.summaryAnswer st) :=
  ⟨fun _ => rfl, fun _ => rfl, fun _ => rfl, fun _ => rfl, fun _ => rfl⟩
